import Mathlib

/-!
# Verification of the CodeCollab swarm orchestrator

A shallow embedding of the orchestration, extraction and pricing logic of
the `stablecoin-agentic-marketplace` repository:

* `src/agents/payment_calculator.py` — the pricing engine
  (`PaymentCalculator.calculate_payment` and its tier helpers);
* `src/agents/swarm_orchestrator.py` — `CodeCollabSwarm.process_task`
  and its extraction helpers (`_extract_complexity`,
  `_extract_quality_score`, the inline decision and code-block
  extraction);
* `src/simple_api_server.py` — the bounded task-history list.

Python strings are modelled by `String`, Python `int` by `Int`/`Nat`,
Python `float` arithmetic on decimal money amounts by `ℚ` (the amounts
involved are exact decimals and all comparisons the claims rest on are
far from representation ties), Python `None`/missing values by `Option`.
-/

namespace Spec2Proof

/-! ## String primitives

`strContains hay needle` is Python's `needle in hay`; `strStrip` is
Python's `str.strip()`.  Python's
`str.lower`/`str.upper` are `strLower`/`strUpper` (the texts
involved are ASCII). -/

/-- Does `pat` occur as a contiguous run inside `s`? -/
def listContains (pat : List Char) : List Char → Bool
  | [] => pat.isEmpty
  | c :: cs => pat.isPrefixOf (c :: cs) || listContains pat cs

/-- Python's substring test `needle in hay`. -/
def strContains (hay needle : String) : Bool :=
  listContains needle.data hay.data

/-- Python's `\s` character class (ASCII). -/
def isPySpace (c : Char) : Bool :=
  c = ' ' || c = '\t' || c = '\n' || c = '\x0d' || c = '\x0b' || c = '\x0c'

/-- ASCII uppercase of one character (Python `str.upper` on ASCII text). -/
def charUpper (c : Char) : Char :=
  if 'a' ≤ c && c ≤ 'z' then Char.ofNat (c.toNat - 32) else c

/-- ASCII lowercase of one character (Python `str.lower` on ASCII text). -/
def charLower (c : Char) : Char :=
  if 'A' ≤ c && c ≤ 'Z' then Char.ofNat (c.toNat + 32) else c

/-- Python's `str.upper()` (ASCII). -/
def strUpper (s : String) : String := ⟨s.data.map charUpper⟩

/-- Python's `str.strip()`: drop leading and trailing whitespace. -/
def strStrip (s : String) : String :=
  ⟨((s.data.dropWhile isPySpace).reverse.dropWhile isPySpace).reverse⟩

/-- Python's `str.lower()` (ASCII). -/
def strLower (s : String) : String := ⟨s.data.map charLower⟩

/-! ## Decision extraction

`src/agents/swarm_orchestrator.py`, `process_task` (the
`final_decision` block):

```
final_decision = "COMPLETE"  # Default to complete
if "DECISION: ESCALATE" in final_result_str:
    final_decision = "ESCALATE"
elif "DECISION: COMPLETE" in final_result_str:
    final_decision = "COMPLETE"
elif "ESCALATE" in final_result_str.upper() and "DO NOT ESCALATE" not in final_result_str.upper():
    final_decision = "ESCALATE"
```
-/

/-- The decision extraction of `process_task` over the terminal
(escalation agent) text. -/
def extractDecision (finalResultStr : String) : String :=
  if strContains finalResultStr "DECISION: ESCALATE" then "ESCALATE"
  else if strContains finalResultStr "DECISION: COMPLETE" then "COMPLETE"
  else if strContains (strUpper finalResultStr) "ESCALATE"
          && !(strContains (strUpper finalResultStr) "DO NOT ESCALATE") then "ESCALATE"
  else "COMPLETE"

example : extractDecision "DECISION: COMPLETE" = "COMPLETE" := by decide
example : extractDecision "DECISION: ESCALATE" = "ESCALATE" := by decide
example : extractDecision "we must escalate" = "ESCALATE" := by decide
example : extractDecision "Do not escalate this" = "COMPLETE" := by decide
example : extractDecision "all good" = "COMPLETE" := by decide

/-! ## Pricing engine

`src/agents/payment_calculator.py`, class `PaymentCalculator`.  Money
amounts and multipliers are exact decimals, modelled in `ℚ`; Python's
`round(x, 2)` (round-half-to-even) is `round2`. -/

/-- The floor of a rational, in executable form. -/
def ratFloor (q : ℚ) : ℤ := q.num / (q.den : ℤ)

theorem ratFloor_eq (q : ℚ) : ratFloor q = ⌊q⌋ := Rat.floor_def.symm

/-- Python's `round(q)` to an integer: nearest, ties to even. -/
def roundHalfEven (q : ℚ) : ℤ :=
  if q - ratFloor q < 1 / 2 then ratFloor q
  else if 1 / 2 < q - ratFloor q then ratFloor q + 1
  else if ratFloor q % 2 = 0 then ratFloor q else ratFloor q + 1

/-- Python's `round(q, 2)`: round to the nearest cent, ties to even. -/
def round2 (q : ℚ) : ℚ :=
  (roundHalfEven (q * 100) : ℚ) / 100

/-- `PaymentCalculator.BASE_PRICING` together with the
`.get(key, BASE_PRICING["unknown"])` fallback done in
`calculate_payment`: unrecognized tags price as `"unknown"`. -/
def BASE_PRICING (complexity : String) : ℚ :=
  if complexity = "simple" then 3 / 100
  else if complexity = "medium" then 8 / 100
  else if complexity = "complex" then 20 / 100
  else 5 / 100

/-- `PaymentCalculator._get_quality_tier`. -/
def getQualityTier (score : ℤ) : String :=
  if score ≥ 95 then "excellent"
  else if score ≥ 85 then "good"
  else if score ≥ 70 then "acceptable"
  else "needs_work"

/-- `PaymentCalculator.QUALITY_MULTIPLIERS`; the lookup in
`calculate_payment` is only ever applied to the four tier names produced
by `_get_quality_tier`, so the last branch is the `"needs_work"` entry. -/
def QUALITY_MULTIPLIERS (tier : String) : ℚ :=
  if tier = "excellent" then 13 / 10
  else if tier = "good" then 115 / 100
  else if tier = "acceptable" then 1
  else 8 / 10

/-- `PaymentCalculator._get_time_tier` (argument in seconds). -/
def getTimeTier (executionTimeSec : ℚ) : String :=
  if executionTimeSec < 30 then "very_fast"
  else if executionTimeSec < 60 then "fast"
  else if executionTimeSec ≤ 120 then "normal"
  else "slow"

/-- `PaymentCalculator.TIME_BONUS`; only ever applied to the four tier
names produced by `_get_time_tier`, so the last branch is the `"slow"`
entry. -/
def TIME_BONUS (tier : String) : ℚ :=
  if tier = "very_fast" then 11 / 10
  else if tier = "fast" then 105 / 100
  else if tier = "normal" then 1
  else 95 / 100

/-- The part of the result of `PaymentCalculator.calculate_payment` that
the claims speak about: the amount and the audit breakdown. -/
structure PaymentInfo where
  amount : ℚ
  base_price : ℚ
  quality_tier : String
  quality_multiplier : ℚ
  time_tier : String
  time_multiplier : ℚ
  token_cost : ℚ
  deriving Repr, DecidableEq

/-- `complexity_lower` in `calculate_payment`: an empty complexity
string is falsy in Python, hence treated as `"unknown"`. -/
def complexityKey (complexity : String) : String :=
  if complexity = "" then "unknown" else strLower complexity

/-- `execution_time_sec` in `calculate_payment`. -/
def execSec (executionTimeMs : ℤ) : ℚ :=
  if executionTimeMs > 0 then (executionTimeMs : ℚ) / 1000 else 0

/-- `token_cost` in `calculate_payment`
(`(tokens_used / 1000.0) * TOKEN_COST_PER_1K if tokens_used > 0 else 0`). -/
def tokenCostOf (tokensUsed : ℤ) : ℚ :=
  if tokensUsed > 0 then ((tokensUsed : ℚ) / 1000) * (1 / 10000) else 0

/-- `PaymentCalculator.calculate_payment` (the `code_lines` argument is
carried into the breakdown only and priced nowhere, so it is omitted). -/
def calculatePayment (complexity : String) (qualityScore : ℤ)
    (executionTimeMs : ℤ) (tokensUsed : ℤ) : PaymentInfo :=
  let basePrice := BASE_PRICING (complexityKey complexity)
  let qualityTier := getQualityTier qualityScore
  let qualityMultiplier := QUALITY_MULTIPLIERS qualityTier
  let timeTier := getTimeTier (execSec executionTimeMs)
  let timeMultiplier := TIME_BONUS timeTier
  let tokenCost := tokenCostOf tokensUsed
  let adjustedPrice := basePrice * qualityMultiplier * timeMultiplier
  let finalPayment := round2 (adjustedPrice + tokenCost)
  let finalPayment := max (1 / 100) finalPayment
  { amount := finalPayment
    base_price := basePrice
    quality_tier := qualityTier
    quality_multiplier := qualityMultiplier
    time_tier := timeTier
    time_multiplier := timeMultiplier
    token_cost := tokenCost }

/-- The amount field alone, for the pricing claims. -/
def paymentAmount (complexity : String) (qualityScore : ℤ)
    (executionTimeMs : ℤ) (tokensUsed : ℤ) : ℚ :=
  (calculatePayment complexity qualityScore executionTimeMs tokensUsed).amount

/-! ## Complexity extraction

`CodeCollabSwarm._extract_complexity`: the requirements agent's message
text is lowercased and probed for the six phrase variants, the `simple`
checks first, then `medium`, then `complex`:

```
text_lower = text.lower()
if 'complexity": "simple' in text_lower or 'complexity: simple' in text_lower:
    return "simple"
elif 'complexity": "medium' in text_lower or 'complexity: medium' in text_lower:
    return "medium"
elif 'complexity": "complex' in text_lower or 'complexity: complex' in text_lower:
    return "complex"
return "unknown"
```
-/

/-- The text-scanning core of `_extract_complexity` applied to the
requirements agent's message text. -/
def extractComplexity (text : String) : String :=
  if strContains (strLower text) "complexity\": \"simple"
      || strContains (strLower text) "complexity: simple" then "simple"
  else if strContains (strLower text) "complexity\": \"medium"
      || strContains (strLower text) "complexity: medium" then "medium"
  else if strContains (strLower text) "complexity\": \"complex"
      || strContains (strLower text) "complexity: complex" then "complex"
  else "unknown"

/-- Does one of the six complexity phrases start at the head of `l`?
Used to express the claim reading of C8, in which the textually first
phrase occurrence decides the tag. -/
def complexityTagAt (l : List Char) : Option String :=
  if "complexity\": \"simple".data.isPrefixOf l
      || "complexity: simple".data.isPrefixOf l then some "simple"
  else if "complexity\": \"medium".data.isPrefixOf l
      || "complexity: medium".data.isPrefixOf l then some "medium"
  else if "complexity\": \"complex".data.isPrefixOf l
      || "complexity: complex".data.isPrefixOf l then some "complex"
  else none

/-- Leftmost complexity phrase occurrence in a character list. -/
def firstComplexityTag : List Char → Option String
  | [] => none
  | c :: cs =>
    match complexityTagAt (c :: cs) with
    | some t => some t
    | none => firstComplexityTag cs

/-- Complexity extraction as claim C8 words it: a case-insensitive
search where the first match in the text wins, defaulting to
`"unknown"`. -/
def claimExtractComplexity (text : String) : String :=
  (firstComplexityTag (strLower text).data).getD "unknown"

/-! ## Quality score extraction

`CodeCollabSwarm._extract_quality_score`:

```
score_match = re.search(r'[Ss]core:?\s*(\d+)(?:/100)?', text)
if score_match:
    return int(score_match.group(1))
if hasattr(quality_result, 'context') and isinstance(quality_result.context, dict):
    if 'quality_score' in quality_result.context:
        return int(quality_result.context['quality_score'])
return 85
```

The optional `(?:/100)?` suffix never changes the captured digits (the
greedy `\d+` already consumed them), so it does not appear in the
model. -/

/-- Python `int()` of a run of ASCII digits. -/
def digitsToNat (l : List Char) : ℕ :=
  l.foldl (fun a c => a * 10 + (c.toNat - 48)) 0

/-- One attempted match of `[Ss]core:?\s*(\d+)` anchored at the head of
the list, returning the captured integer. -/
def scoreMatchAt : List Char → Option ℕ
  | [] => none
  | c :: rest =>
    if c = 'S' || c = 's' then
      match rest with
      | 'c' :: 'o' :: 'r' :: 'e' :: rest2 =>
        let rest3 := match rest2 with
          | ':' :: t => t
          | t => t
        let rest4 := rest3.dropWhile isPySpace
        let ds := rest4.takeWhile Char.isDigit
        if ds.isEmpty then none else some (digitsToNat ds)
      | _ => none
    else none

/-- `re.search`: the leftmost position where the score pattern
matches. -/
def searchScore : List Char → Option ℕ
  | [] => none
  | c :: cs =>
    match scoreMatchAt (c :: cs) with
    | some n => some n
    | none => searchScore cs

/-- `CodeCollabSwarm._extract_quality_score` on the quality agent's
message text; `ctxScore` is the structured `quality_score` field of that
agent's handoff context when present. -/
def extractQualityScore (text : String) (ctxScore : Option ℤ) : ℤ :=
  match searchScore text.data with
  | some n => (n : ℤ)
  | none =>
    match ctxScore with
    | some v => v
    | none => 85

/-! ## Code-block extraction

`process_task` scans the escalation agent's text for
`re.findall` matches of the fenced-python-block pattern (non-greedy,
DOTALL), preferring the first block that is not a test module and
contains a definition; when the resulting deliverable is still falsy
(missing or the empty string) the builder agent's own text is scanned
the same way, with `import unittest` instead of `import pytest` as the
test-module marker.  Python's `str.strip()` is `strStrip`. -/

/-- Split at the first occurrence of `pat`: the part strictly before it
and the part strictly after it; `none` when `pat` does not occur. -/
def splitAtFirst (pat : List Char) : List Char → Option (List Char × List Char)
  | [] => if pat.isEmpty then some ([], []) else none
  | c :: cs =>
    if pat.isPrefixOf (c :: cs) then some ([], (c :: cs).drop pat.length)
    else
      match splitAtFirst pat cs with
      | some (pre, post) => some (c :: pre, post)
      | none => none

/-- Fuelled scan for `re.findall` of the fenced-block pattern: each
match captures the shortest run between an opening fence and the next
closing fence, and the scan resumes after the closing fence. -/
def findBlocksAux : ℕ → List Char → List (List Char)
  | 0, _ => []
  | fuel + 1, s =>
    match splitAtFirst "```python\n".data s with
    | none => []
    | some (_, rest1) =>
      match splitAtFirst "```".data rest1 with
      | none => []
      | some (block, rest2) => block :: findBlocksAux fuel rest2

/-- All captures of `re.findall` of the fenced-python-block pattern
over `s` (the fuel `s.length` strictly dominates the number of
possible matches, each of which consumes at least the fences). -/
def findBlocks (s : String) : List String :=
  (findBlocksAux s.data.length s.data).map fun l => ⟨l⟩

/-- The block-selection loop of `process_task`: the first fenced block
that carries no test-declaration marker and contains a `def` or `class`
definition. -/
def pickMainCode (testImportMarker : String) (blocks : List String) : Option String :=
  blocks.find? fun block =>
    (!strContains block "def test_" && !strContains block testImportMarker)
      && (strContains block "def " || strContains block "class ")

/-- The escalation-text phase of code extraction in `process_task`:
`main_code if main_code else code_blocks[0].strip()` after the
selection loop, `none` when the text has no fenced block. -/
def phase1Code (finalResultStr : String) : Option String :=
  let codeBlocks := findBlocks finalResultStr
  if codeBlocks.isEmpty then none
  else
    match pickMainCode "import pytest" codeBlocks with
    | some block =>
      if strStrip block = "" then some (strStrip (codeBlocks.headD "")) else some (strStrip block)
    | none => some (strStrip (codeBlocks.headD ""))

/-- The builder-fallback phase of code extraction in `process_task`:
same selection over the builder agent's text with the `import unittest`
marker, falling back to the first builder block when the loop selects
nothing. -/
def phase2Code (builderStr : String) : Option String :=
  let bblocks := findBlocks builderStr
  if bblocks.isEmpty then none
  else
    match pickMainCode "import unittest" bblocks with
    | some block =>
      if strStrip block = "" then some (strStrip (bblocks.headD "")) else some (strStrip block)
    | none => some (strStrip (bblocks.headD ""))

/-- The complete code-deliverable extraction of `process_task`:
`deliverables['code']` at the end of both phases, where the builder
phase runs only when the phase-1 value is falsy (absent or empty) and
the builder output is accessible (`builderStr` present), and leaves the
phase-1 value in place when the builder text has no fenced block. -/
def extractCode (finalResultStr : String) (builderStr : Option String) : Option String :=
  let code1 := phase1Code finalResultStr
  if code1.getD "" = "" then
    match builderStr with
    | none => code1
    | some b =>
      match phase2Code b with
      | none => code1
      | some c => some c
  else code1

/-- Code extraction as claim C6 words it: the fallback text is
consulted only when the terminal text contains no fenced region at all,
and with the same (pytest-marker) search applied to it. -/
def claimExtractCode (finalResultStr : String) (builderStr : Option String) : Option String :=
  let tblocks := findBlocks finalResultStr
  if !tblocks.isEmpty then
    some (strStrip ((pickMainCode "import pytest" tblocks).getD (tblocks.headD "")))
  else
    match builderStr with
    | none => none
    | some b =>
      let bblocks := findBlocks b
      if !bblocks.isEmpty then
        some (strStrip ((pickMainCode "import pytest" bblocks).getD (bblocks.headD "")))
      else none

/-! ## process_task

`CodeCollabSwarm.process_task` calls the swarm and turns its result
into the response record; any exception raised inside the `try` body is
caught and converted into an error record
(`{"success": False, "task_description": ..., "error": str(e)}`).  The
swarm call's outcome is modelled as `Except String SwarmResult`: either
an exception with its text, or a result object.  The attribute probing
of the Python code collapses into `Option` fields: `status` is the
result's `status` attribute when present; `finalText` is the
`final_result_str` assembled from the escalation agent's message (with
its `str(result)` final fallback, so it is always a string);
`builderText`/`reqText`/`qualText` are the builder, requirements and
quality agents' message texts when reachable; `qualCtxScore` is the
structured `quality_score` of the quality agent's context. -/

/-- The fields of the swarm framework's result object that
`process_task` reads. -/
structure SwarmResult where
  status : Option String
  nodeHistory : List String
  executionTimeMs : ℤ
  finalText : String
  builderText : Option String
  reqText : Option String
  qualText : Option String
  qualCtxScore : Option ℤ
  totalTokens : ℤ

/-- `success_status` in `process_task`:
`result.status == "success" if hasattr(result, 'status') else True` for
a (non-dict) result object. -/
def successStatus (r : SwarmResult) : Bool :=
  match r.status with
  | some s => s == "success"
  | none => true

/-- The response record `process_task` returns (the fields the claims
speak about; the error shape carries only `success`, the task and the
error text, matching the `except` branch). -/
structure RunResponse where
  success : Bool
  task_description : String
  final_result : String := ""
  agent_sequence : List String := []
  handoff_count : ℕ := 0
  code : Option String := none
  final_decision : String := "COMPLETE"
  payment : Option PaymentInfo := none
  error : Option String := none

/-- `CodeCollabSwarm.process_task`: never raises; an exception becomes
an error record, a swarm result is decomposed by the extractors and
priced. -/
def processTask (task : String) (outcome : Except String SwarmResult) : RunResponse :=
  match outcome with
  | .error e =>
    { success := false
      task_description := task
      error := some e }
  | .ok r =>
    let agentSequence := r.nodeHistory
    let handoffCount := if agentSequence.length > 1 then agentSequence.length - 1 else 0
    let code := extractCode r.finalText r.builderText
    let finalDecision := extractDecision r.finalText
    let complexity :=
      match r.reqText with
      | some text => extractComplexity text
      | none => "unknown"
    let qualityScore :=
      match r.qualText with
      | some text => extractQualityScore text r.qualCtxScore
      | none => 85
    let payment := calculatePayment complexity qualityScore r.executionTimeMs r.totalTokens
    { success := successStatus r && (finalDecision == "COMPLETE")
      task_description := task
      final_result := r.finalText
      agent_sequence := agentSequence
      handoff_count := handoffCount
      code := code
      final_decision := finalDecision
      payment := some payment }

/-! ## Handoff state machine

The state machine that sequences agent activations lives in the
delegated `strands` framework, outside this repository's sources; the
repository only configures it (`swarm_orchestrator.py` passes
`max_handoffs=10, max_iterations=10,
repetitive_handoff_detection_window=5,
repetitive_handoff_min_unique_agents=3`) and reads the node history.
The machine itself is therefore modelled from the spec. -/

/-- What an activated agent asks for next: an explicit handoff
directive naming the next agent, or no directive (terminate).  The
choice is made by an untrusted text-producing actor, so the model
quantifies over arbitrary directive policies. -/
inductive Directive where
  | handoff (target : String)
  | terminate
  deriving Repr, DecidableEq

/-- The bound configuration the orchestrator passes to the swarm. -/
structure SwarmConfig where
  maxHandoffs : ℕ
  maxIterations : ℕ
  repetitiveWindow : ℕ
  repetitiveMinUnique : ℕ
  deriving Repr, DecidableEq

/-- The configuration of `CodeCollabSwarm.__init__`. -/
def codeCollabConfig : SwarmConfig :=
  { maxHandoffs := 10
    maxIterations := 10
    repetitiveWindow := 5
    repetitiveMinUnique := 3 }

/-- Modelled from the spec: the bounded handoff loop of the swarm
framework (absent from `src/`).  Each pass activates the current agent
(appending it to the accumulator, most recent first), force-terminates
with a tag when the iteration budget is exhausted before the
activation, when the sliding window of the last
`repetitiveWindow` activations holds fewer than `repetitiveMinUnique`
distinct agents, or when a handoff directive arrives with the handoff
budget exhausted; otherwise it follows the directive.  The directive
after each activation is supplied by the untrusted `policy` from the
sequence so far. -/
def runSwarmAux (cfg : SwarmConfig) (policy : List String → Directive) :
    ℕ → ℕ → String → List String → List String × Option String
  | 0, _, _, acc => (acc.reverse, some "iteration limit")
  | itersLeft + 1, handoffsLeft, current, acc =>
    let acc' := current :: acc
    if acc'.length ≥ cfg.repetitiveWindow ∧
        (acc'.take cfg.repetitiveWindow).dedup.length < cfg.repetitiveMinUnique then
      (acc'.reverse, some "repetitive handoff")
    else
      match policy acc'.reverse with
      | Directive.terminate => (acc'.reverse, none)
      | Directive.handoff target =>
        match handoffsLeft with
        | 0 => (acc'.reverse, some "handoff limit")
        | h + 1 => runSwarmAux cfg policy itersLeft h target acc'

/-- Modelled from the spec: one run of the handoff state machine from
the initial `requirements_agent` state, returning the agent sequence
and the failure tag (`none` on normal termination). -/
def runSwarm (cfg : SwarmConfig) (policy : List String → Directive) :
    List String × Option String :=
  runSwarmAux cfg policy cfg.maxIterations cfg.maxHandoffs "requirements_agent" []

/-! ## Task history

`src/simple_api_server.py` keeps a process-wide `task_history` list;
after building each `/api/process` response the handler appends it and
pops the oldest entry when the length exceeds 50:

```
task_history.append(response)
if len(task_history) > 50:
    task_history.pop(0)
```
-/

/-- The `task_history` update a completed POST `/api/process` performs
(`α` is the response record type). -/
def historyUpdate {α : Type} (history : List α) (response : α) : List α :=
  let h := history ++ [response]
  if h.length > 50 then h.drop 1 else h

/-- The history after a sequence of completed POST requests, starting
from the empty list the module initializes. -/
def historyAfter {α : Type} (responses : List α) : List α :=
  responses.foldl historyUpdate []

end Spec2Proof

/-- C2: for every terminal text the extracted decision is one of
`ESCALATE`/`COMPLETE`, chosen by the precedence: the marker
`DECISION: ESCALATE` wins; else the marker `DECISION: COMPLETE`; else
`ESCALATE` when the token `ESCALATE` appears case-insensitively and the
negation phrase `DO NOT ESCALATE` does not (case-insensitively); else
the default `COMPLETE`. -/
theorem Spec2Proof.extractDecision_spec (s : String) :
    (Spec2Proof.extractDecision s = "ESCALATE" ∨
      Spec2Proof.extractDecision s = "COMPLETE") ∧
    (Spec2Proof.strContains s "DECISION: ESCALATE" = true →
      Spec2Proof.extractDecision s = "ESCALATE") ∧
    (Spec2Proof.strContains s "DECISION: ESCALATE" = false →
      Spec2Proof.strContains s "DECISION: COMPLETE" = true →
      Spec2Proof.extractDecision s = "COMPLETE") ∧
    (Spec2Proof.strContains s "DECISION: ESCALATE" = false →
      Spec2Proof.strContains s "DECISION: COMPLETE" = false →
      Spec2Proof.strContains (Spec2Proof.strUpper s) "ESCALATE" = true →
      Spec2Proof.strContains (Spec2Proof.strUpper s) "DO NOT ESCALATE" = false →
      Spec2Proof.extractDecision s = "ESCALATE") ∧
    (Spec2Proof.strContains s "DECISION: ESCALATE" = false →
      Spec2Proof.strContains s "DECISION: COMPLETE" = false →
      (Spec2Proof.strContains (Spec2Proof.strUpper s) "ESCALATE" = false ∨
        Spec2Proof.strContains (Spec2Proof.strUpper s) "DO NOT ESCALATE" = true) →
      Spec2Proof.extractDecision s = "COMPLETE") := by
  unfold Spec2Proof.extractDecision
  refine ⟨?_, ?_, ?_, ?_, ?_⟩ <;>
    · intros
      split_ifs <;> simp_all

/-- C2 witness: the theorem applied at the concrete text
`"DECISION: ESCALATE"`. -/
theorem Spec2Proof.extractDecision_spec_witness :
    Spec2Proof.extractDecision "DECISION: ESCALATE" = "ESCALATE" :=
  (Spec2Proof.extractDecision_spec "DECISION: ESCALATE").2.1 (by decide)

/-- C3: `calculate_payment` on the two end-to-end examples of the spec:
`simple`, quality 90, 20000 ms, 1000 tokens pays $0.04, and `complex`,
quality 60, 150000 ms, 0 tokens pays $0.15. -/
theorem Spec2Proof.calculatePayment_examples :
    Spec2Proof.paymentAmount "simple" 90 20000 1000 = 4 / 100 ∧
    Spec2Proof.paymentAmount "complex" 60 150000 0 = 15 / 100 := by
  have h1 : Spec2Proof.complexityKey "simple" = "simple" := by decide
  have h2 : Spec2Proof.complexityKey "complex" = "complex" := by decide
  constructor <;>
    · simp only [Spec2Proof.paymentAmount, Spec2Proof.calculatePayment, h1, h2]
      norm_num [Spec2Proof.getTimeTier, Spec2Proof.getQualityTier,
        Spec2Proof.execSec, Spec2Proof.tokenCostOf]
      simp [Spec2Proof.BASE_PRICING, Spec2Proof.QUALITY_MULTIPLIERS, Spec2Proof.TIME_BONUS]
      norm_num [Spec2Proof.round2, Spec2Proof.roundHalfEven, Spec2Proof.ratFloor, max_def]

theorem Spec2Proof.roundHalfEven_le (q : ℚ) :
    Spec2Proof.roundHalfEven q ≤ Spec2Proof.ratFloor q + 1 := by
  unfold Spec2Proof.roundHalfEven
  split_ifs <;> omega

theorem Spec2Proof.le_roundHalfEven (q : ℚ) :
    Spec2Proof.ratFloor q ≤ Spec2Proof.roundHalfEven q := by
  unfold Spec2Proof.roundHalfEven
  split_ifs <;> omega

theorem Spec2Proof.roundHalfEven_mono {x y : ℚ} (h : x ≤ y) :
    Spec2Proof.roundHalfEven x ≤ Spec2Proof.roundHalfEven y := by
  have hf : Spec2Proof.ratFloor x ≤ Spec2Proof.ratFloor y := by
    rw [Spec2Proof.ratFloor_eq, Spec2Proof.ratFloor_eq]
    exact Int.floor_mono h
  rcases eq_or_lt_of_le hf with heq | hlt
  · have hr : x - Spec2Proof.ratFloor x ≤ y - Spec2Proof.ratFloor y := by
      rw [heq]
      have : (Spec2Proof.ratFloor y : ℚ) = Spec2Proof.ratFloor y := rfl
      linarith [h]
    unfold Spec2Proof.roundHalfEven
    rw [heq] at hr ⊢
    split_ifs <;> first | omega | linarith
  · calc Spec2Proof.roundHalfEven x ≤ Spec2Proof.ratFloor x + 1 := Spec2Proof.roundHalfEven_le x
      _ ≤ Spec2Proof.ratFloor y := by omega
      _ ≤ Spec2Proof.roundHalfEven y := Spec2Proof.le_roundHalfEven y

theorem Spec2Proof.round2_mono {x y : ℚ} (h : x ≤ y) :
    Spec2Proof.round2 x ≤ Spec2Proof.round2 y := by
  unfold Spec2Proof.round2
  have : Spec2Proof.roundHalfEven (x * 100) ≤ Spec2Proof.roundHalfEven (y * 100) :=
    Spec2Proof.roundHalfEven_mono (by linarith)
  have hc : (Spec2Proof.roundHalfEven (x * 100) : ℚ) ≤ Spec2Proof.roundHalfEven (y * 100) := by
    exact_mod_cast this
  linarith

theorem Spec2Proof.BASE_PRICING_nonneg (c : String) : 0 ≤ Spec2Proof.BASE_PRICING c := by
  unfold Spec2Proof.BASE_PRICING
  split_ifs <;> norm_num

theorem Spec2Proof.TIME_BONUS_nonneg (t : String) : 0 ≤ Spec2Proof.TIME_BONUS t := by
  unfold Spec2Proof.TIME_BONUS
  split_ifs <;> norm_num

theorem Spec2Proof.qualityMultiplier_mono {q1 q2 : ℤ} (h : q1 ≤ q2) :
    Spec2Proof.QUALITY_MULTIPLIERS (Spec2Proof.getQualityTier q1) ≤
      Spec2Proof.QUALITY_MULTIPLIERS (Spec2Proof.getQualityTier q2) := by
  unfold Spec2Proof.getQualityTier
  split_ifs <;> simp [Spec2Proof.QUALITY_MULTIPLIERS] <;> first | omega | norm_num

theorem Spec2Proof.timeMultiplier_anti {s1 s2 : ℚ} (h : s1 ≤ s2) :
    Spec2Proof.TIME_BONUS (Spec2Proof.getTimeTier s2) ≤
      Spec2Proof.TIME_BONUS (Spec2Proof.getTimeTier s1) := by
  unfold Spec2Proof.getTimeTier
  split_ifs <;> simp [Spec2Proof.TIME_BONUS] <;> linarith

theorem Spec2Proof.execSec_mono {ms1 ms2 : ℤ} (h : ms1 ≤ ms2) :
    Spec2Proof.execSec ms1 ≤ Spec2Proof.execSec ms2 := by
  unfold Spec2Proof.execSec
  split_ifs with h1 h2
  · have : (ms1 : ℚ) ≤ (ms2 : ℚ) := by exact_mod_cast h
    linarith
  · omega
  · positivity
  · exact le_refl 0

theorem Spec2Proof.paymentAmount_eq (c : String) (q ms tok : ℤ) :
    Spec2Proof.paymentAmount c q ms tok =
      max (1 / 100)
        (Spec2Proof.round2
          (Spec2Proof.BASE_PRICING (Spec2Proof.complexityKey c) *
              Spec2Proof.QUALITY_MULTIPLIERS (Spec2Proof.getQualityTier q) *
              Spec2Proof.TIME_BONUS (Spec2Proof.getTimeTier (Spec2Proof.execSec ms)) +
            Spec2Proof.tokenCostOf tok)) := rfl

theorem Spec2Proof.QUALITY_MULTIPLIERS_nonneg (t : String) :
    0 ≤ Spec2Proof.QUALITY_MULTIPLIERS t := by
  unfold Spec2Proof.QUALITY_MULTIPLIERS
  split_ifs <;> norm_num

/-- C4: for every complexity string, quality score, execution time and
token count, the amount is at least $0.01 and is a whole number of
cents: the sum of adjusted price and token cost is rounded to 2 decimal
places and then floored at the $0.01 minimum. -/
theorem Spec2Proof.paymentAmount_min_and_cents (c : String) (q ms tok : ℤ) :
    1 / 100 ≤ Spec2Proof.paymentAmount c q ms tok ∧
    ∃ n : ℤ, Spec2Proof.paymentAmount c q ms tok = (n : ℚ) / 100 := by
  rw [Spec2Proof.paymentAmount_eq]
  constructor
  · exact le_max_left _ _
  · rw [Spec2Proof.round2]
    refine ⟨max 1 (Spec2Proof.roundHalfEven ((Spec2Proof.BASE_PRICING
      (Spec2Proof.complexityKey c) *
        Spec2Proof.QUALITY_MULTIPLIERS (Spec2Proof.getQualityTier q) *
        Spec2Proof.TIME_BONUS (Spec2Proof.getTimeTier (Spec2Proof.execSec ms)) +
      Spec2Proof.tokenCostOf tok) * 100)), ?_⟩
    push_cast
    rw [← max_div_div_right (by norm_num : (0:ℚ) ≤ 100)]

/-- C5: payment is monotonic in tiers: for fixed complexity, execution
time and token count the amount is non-decreasing in the quality score
(hence in the quality tier through needs_work, acceptable, good,
excellent), and for fixed complexity, quality score and token count the
amount is non-increasing in the execution time (hence as the time tier
falls through very_fast, fast, normal, slow). -/
theorem Spec2Proof.paymentAmount_tier_monotone (c : String)
    (q1 q2 q ms ms1 ms2 tok : ℤ) (hq : q1 ≤ q2) (hms : ms1 ≤ ms2) :
    Spec2Proof.paymentAmount c q1 ms tok ≤ Spec2Proof.paymentAmount c q2 ms tok ∧
    Spec2Proof.paymentAmount c q ms2 tok ≤ Spec2Proof.paymentAmount c q ms1 tok := by
  constructor
  · rw [Spec2Proof.paymentAmount_eq, Spec2Proof.paymentAmount_eq]
    refine max_le_max (le_refl _) (Spec2Proof.round2_mono (add_le_add_right ?_ _))
    exact mul_le_mul_of_nonneg_right
      (mul_le_mul_of_nonneg_left (Spec2Proof.qualityMultiplier_mono hq)
        (Spec2Proof.BASE_PRICING_nonneg _))
      (Spec2Proof.TIME_BONUS_nonneg _)
  · rw [Spec2Proof.paymentAmount_eq, Spec2Proof.paymentAmount_eq]
    refine max_le_max (le_refl _) (Spec2Proof.round2_mono (add_le_add_right ?_ _))
    exact mul_le_mul_of_nonneg_left
      (Spec2Proof.timeMultiplier_anti (Spec2Proof.execSec_mono hms))
      (mul_nonneg (Spec2Proof.BASE_PRICING_nonneg _)
        (Spec2Proof.QUALITY_MULTIPLIERS_nonneg _))

/-- C5 witness: the monotonicity theorem applied at quality scores
60 ≤ 95 and execution times 20000 ≤ 150000, complexity `simple`. -/
theorem Spec2Proof.paymentAmount_tier_monotone_witness :
    Spec2Proof.paymentAmount "simple" 60 20000 0 ≤
      Spec2Proof.paymentAmount "simple" 95 20000 0 ∧
    Spec2Proof.paymentAmount "simple" 90 150000 0 ≤
      Spec2Proof.paymentAmount "simple" 90 20000 0 :=
  Spec2Proof.paymentAmount_tier_monotone "simple" 60 95 90 20000 20000 150000 0
    (by decide) (by decide)

/-- C8 counterexample: in a text where the phrase `complexity: complex`
occurs before `complexity: simple`, the first match in the text is
`complex`, but `_extract_complexity` checks the `simple` phrases first
over the whole text and returns `simple`. -/
theorem Spec2Proof.extractComplexity_counterexample :
    Spec2Proof.claimExtractComplexity
        "Complexity: complex. Subtask complexity: simple." = "complex" ∧
    Spec2Proof.extractComplexity
        "Complexity: complex. Subtask complexity: simple." = "simple" ∧
    Spec2Proof.extractComplexity
        "Complexity: complex. Subtask complexity: simple." ≠
      Spec2Proof.claimExtractComplexity
        "Complexity: complex. Subtask complexity: simple." := by
  refine ⟨by decide, by decide, by decide⟩

/-- C8 amended: for every requirements-agent text the extracted
complexity is one of `simple`, `medium`, `complex`, `unknown`, found by
a case-insensitive search for a `complexity: <tag>` phrase in natural or
structured (JSON) form, where the tags are tried in the fixed priority
order `simple`, `medium`, `complex` (each matched anywhere in the
text) rather than by textual position; with no phrase present the
result defaults to `unknown`. -/
theorem Spec2Proof.extractComplexity_spec (text : String) :
    (Spec2Proof.extractComplexity text = "simple" ∨
      Spec2Proof.extractComplexity text = "medium" ∨
      Spec2Proof.extractComplexity text = "complex" ∨
      Spec2Proof.extractComplexity text = "unknown") ∧
    ((Spec2Proof.strContains (Spec2Proof.strLower text) "complexity\": \"simple"
        || Spec2Proof.strContains (Spec2Proof.strLower text) "complexity: simple") = true →
      Spec2Proof.extractComplexity text = "simple") ∧
    ((Spec2Proof.strContains (Spec2Proof.strLower text) "complexity\": \"simple"
        || Spec2Proof.strContains (Spec2Proof.strLower text) "complexity: simple") = false →
      (Spec2Proof.strContains (Spec2Proof.strLower text) "complexity\": \"medium"
        || Spec2Proof.strContains (Spec2Proof.strLower text) "complexity: medium") = true →
      Spec2Proof.extractComplexity text = "medium") ∧
    ((Spec2Proof.strContains (Spec2Proof.strLower text) "complexity\": \"simple"
        || Spec2Proof.strContains (Spec2Proof.strLower text) "complexity: simple") = false →
      (Spec2Proof.strContains (Spec2Proof.strLower text) "complexity\": \"medium"
        || Spec2Proof.strContains (Spec2Proof.strLower text) "complexity: medium") = false →
      (Spec2Proof.strContains (Spec2Proof.strLower text) "complexity\": \"complex"
        || Spec2Proof.strContains (Spec2Proof.strLower text) "complexity: complex") = true →
      Spec2Proof.extractComplexity text = "complex") ∧
    ((Spec2Proof.strContains (Spec2Proof.strLower text) "complexity\": \"simple"
        || Spec2Proof.strContains (Spec2Proof.strLower text) "complexity: simple") = false →
      (Spec2Proof.strContains (Spec2Proof.strLower text) "complexity\": \"medium"
        || Spec2Proof.strContains (Spec2Proof.strLower text) "complexity: medium") = false →
      (Spec2Proof.strContains (Spec2Proof.strLower text) "complexity\": \"complex"
        || Spec2Proof.strContains (Spec2Proof.strLower text) "complexity: complex") = false →
      Spec2Proof.extractComplexity text = "unknown") := by
  unfold Spec2Proof.extractComplexity
  refine ⟨?_, ?_, ?_, ?_, ?_⟩ <;>
    · intros
      split_ifs <;> simp_all

/-- C8 witness: the amended theorem applied at the concrete text
`"complexity: simple task"`. -/
theorem Spec2Proof.extractComplexity_spec_witness :
    Spec2Proof.extractComplexity "complexity: simple task" = "simple" :=
  (Spec2Proof.extractComplexity_spec "complexity: simple task").2.1 (by decide)

/-- C7 counterexample: on the text `Score: 150` the code returns the
unclamped value 150, so the extracted quality score is neither clamped
into 0–100 nor always an integer in that range. -/
theorem Spec2Proof.extractQualityScore_counterexample :
    Spec2Proof.extractQualityScore "Score: 150" none = 150 ∧
    ¬ Spec2Proof.extractQualityScore "Score: 150" none ≤ 100 := by
  refine ⟨by decide, by decide⟩

/-- C7 amended: the `Score: <int>` pattern (initial letter upper or
lower case, optional colon, optional whitespace, optional trailing
`/100`) is searched for; when it matches, the parsed digits are
returned unclamped, so the result is only guaranteed non-negative; with
no match the structured `quality_score` field of the handoff context is
used; otherwise the fallback default 85 is returned.  Matching is not
fully case-insensitive: the all-caps text `SCORE: 50` does not match
and falls through to the default. -/
theorem Spec2Proof.extractQualityScore_spec (text : String) (ctx : Option ℤ) :
    (∀ n : ℕ, Spec2Proof.searchScore text.data = some n →
      Spec2Proof.extractQualityScore text ctx = (n : ℤ) ∧
        0 ≤ Spec2Proof.extractQualityScore text ctx) ∧
    (Spec2Proof.searchScore text.data = none →
      Spec2Proof.extractQualityScore text ctx = ctx.getD 85) ∧
    Spec2Proof.extractQualityScore "SCORE: 50" none = 85 := by
  refine ⟨?_, ?_, by decide⟩
  · intro n hn
    unfold Spec2Proof.extractQualityScore
    rw [hn]
    exact ⟨rfl, Int.ofNat_nonneg n⟩
  · intro hn
    unfold Spec2Proof.extractQualityScore
    rw [hn]
    cases ctx <;> rfl

/-- C7 witness: the amended theorem applied at the concrete text
`"PASS, Score: 92/100"` with no structured context score. -/
theorem Spec2Proof.extractQualityScore_spec_witness :
    Spec2Proof.extractQualityScore "PASS, Score: 92/100" none = (92 : ℤ) ∧
    0 ≤ Spec2Proof.extractQualityScore "PASS, Score: 92/100" none :=
  (Spec2Proof.extractQualityScore_spec "PASS, Score: 92/100" none).1 92 (by decide)

theorem optGetD_empty_iff (o : Option String) :
    o.getD "" = "" ↔ o = none ∨ o = some "" := by
  cases o <;> simp

theorem phase1Code_none_iff (t : String) :
    Spec2Proof.phase1Code t = none ↔ Spec2Proof.findBlocks t = [] := by
  unfold Spec2Proof.phase1Code
  cases hb : Spec2Proof.findBlocks t with
  | nil => simp
  | cons x xs =>
    cases hp : Spec2Proof.pickMainCode "import pytest" (x :: xs) with
    | none => simp [hp]
    | some block =>
      simp only [hp, List.isEmpty_cons]
      split_ifs <;> simp_all

theorem phase2Code_none_iff (s : String) :
    Spec2Proof.phase2Code s = none ↔ Spec2Proof.findBlocks s = [] := by
  unfold Spec2Proof.phase2Code
  cases hb : Spec2Proof.findBlocks s with
  | nil => simp
  | cons x xs =>
    cases hp : Spec2Proof.pickMainCode "import unittest" (x :: xs) with
    | none => simp [hp]
    | some block =>
      simp only [hp, List.isEmpty_cons]
      split_ifs <;> simp_all

/-- C6 counterexample: on a terminal text whose only fenced region is
empty, the claim prescribes returning that first region (the empty
string) without consulting the fallback text, but `process_task` treats
the empty extracted code as falsy and takes the builder fallback,
returning the builder's function definition instead. -/
theorem Spec2Proof.extractCode_counterexample :
    Spec2Proof.claimExtractCode "```python\n```"
        (some "```python\ndef f():\n    return 1\n```") = some "" ∧
    Spec2Proof.extractCode "```python\n```"
        (some "```python\ndef f():\n    return 1\n```") =
      some "def f():\n    return 1" ∧
    Spec2Proof.extractCode "```python\n```"
        (some "```python\ndef f():\n    return 1\n```") ≠
      Spec2Proof.claimExtractCode "```python\n```"
        (some "```python\ndef f():\n    return 1\n```") := by
  refine ⟨by decide, by decide, by decide⟩

/-- C6 amended: code extraction prefers implementation over tests and
falls back before giving up: the terminal text's fenced regions are
searched for the first region containing a `def` or `class` definition
that is not a test module (markers `def test_` and `import pytest`),
else the first region, trimmed; when the terminal text has no fenced
region, or the chosen region trims to the empty string, the same search
is applied to the fallback (builder) text with `import unittest` as the
test-module marker; when the fallback text is unavailable or has no
fenced region either, the terminal result stands (the empty string when
the terminal text had regions, absent otherwise).  In particular, on
terminal text with two fenced blocks where the first is a test module
and the second contains a function definition, the second block's
trimmed contents are returned. -/
theorem Spec2Proof.extractCode_spec (t : String) (b : Option String) :
    (Spec2Proof.phase1Code t = none ↔ Spec2Proof.findBlocks t = []) ∧
    (Spec2Proof.phase1Code t ≠ none → Spec2Proof.phase1Code t ≠ some "" →
      Spec2Proof.extractCode t b = Spec2Proof.phase1Code t) ∧
    ((Spec2Proof.phase1Code t = none ∨ Spec2Proof.phase1Code t = some "") →
      b = none → Spec2Proof.extractCode t b = Spec2Proof.phase1Code t) ∧
    ((Spec2Proof.phase1Code t = none ∨ Spec2Proof.phase1Code t = some "") →
      ∀ s, b = some s → Spec2Proof.findBlocks s ≠ [] →
        Spec2Proof.extractCode t b = Spec2Proof.phase2Code s) ∧
    ((Spec2Proof.phase1Code t = none ∨ Spec2Proof.phase1Code t = some "") →
      ∀ s, b = some s → Spec2Proof.findBlocks s = [] →
        Spec2Proof.extractCode t b = Spec2Proof.phase1Code t) ∧
    Spec2Proof.extractCode
        "```python\nimport pytest\n\ndef test_add():\n    assert add(1, 2) == 3\n```\nprose\n```python\ndef add(a, b):\n    return a + b\n```"
        none =
      some "def add(a, b):\n    return a + b" := by
  refine ⟨phase1Code_none_iff t, ?_, ?_, ?_, ?_, ?_⟩
  · intro h1 h2
    have hc : ¬ (Spec2Proof.phase1Code t).getD "" = "" := by
      intro hc
      rcases (optGetD_empty_iff _).mp hc with h | h
      · exact h1 h
      · exact h2 h
    simp only [Spec2Proof.extractCode, if_neg hc]
  · intro hfal hb
    subst hb
    have hc : (Spec2Proof.phase1Code t).getD "" = "" :=
      (optGetD_empty_iff _).mpr hfal
    simp only [Spec2Proof.extractCode, if_pos hc]
  · intro hfal s hb hs
    subst hb
    have hc : (Spec2Proof.phase1Code t).getD "" = "" :=
      (optGetD_empty_iff _).mpr hfal
    have h2 : Spec2Proof.phase2Code s ≠ none := fun h =>
      hs ((phase2Code_none_iff s).mp h)
    obtain ⟨c, hc2⟩ := Option.ne_none_iff_exists'.mp h2
    simp only [Spec2Proof.extractCode, if_pos hc, hc2]
  · intro hfal s hb hs
    subst hb
    have hc : (Spec2Proof.phase1Code t).getD "" = "" :=
      (optGetD_empty_iff _).mpr hfal
    have h2 : Spec2Proof.phase2Code s = none :=
      (phase2Code_none_iff s).mpr hs
    simp only [Spec2Proof.extractCode, if_pos hc, h2]
  · set_option maxRecDepth 10000 in decide

/-- C6 witness: on a terminal text with one non-test definition block
the extraction returns the phase-1 (terminal) choice. -/
theorem Spec2Proof.extractCode_spec_witness :
    Spec2Proof.extractCode "```python\ndef g():\n    return 2\n```" none =
      Spec2Proof.phase1Code "```python\ndef g():\n    return 2\n```" :=
  (Spec2Proof.extractCode_spec "```python\ndef g():\n    return 2\n```" none).2.1
    (by decide) (by decide)

/-- C1: `process_task` never raises to its caller — an internal
exception is returned as a record with `success = false` and the
exception text in the `error` field (in the model, totality of
`processTask` over the `Except`-valued outcome); and on a normal return
with a `status` attribute present, `success` is true if and only if the
run status is `"success"` and the extracted final decision is
`"COMPLETE"`. -/
theorem Spec2Proof.processTask_spec (task e : String)
    (r : Spec2Proof.SwarmResult) (s : String) :
    ((Spec2Proof.processTask task (Except.error e)).success = false ∧
      (Spec2Proof.processTask task (Except.error e)).error = some e) ∧
    (r.status = some s →
      ((Spec2Proof.processTask task (Except.ok r)).success = true ↔
        s = "success" ∧ Spec2Proof.extractDecision r.finalText = "COMPLETE")) := by
  refine ⟨⟨rfl, rfl⟩, ?_⟩
  intro hs
  simp [Spec2Proof.processTask, Spec2Proof.successStatus, hs, Bool.and_eq_true,
    beq_iff_eq]

/-- C1 witness: the theorem applied to a concrete run whose status is
`"success"` and whose terminal text decides `COMPLETE`. -/
theorem Spec2Proof.processTask_spec_witness :
    (Spec2Proof.processTask "add two numbers"
        (Except.ok (⟨some "success",
          ["requirements_agent", "context_agent", "builder_agent",
            "quality_agent", "escalation_agent"],
          20000, "DECISION: COMPLETE", none, none, none, none,
          1000⟩ : Spec2Proof.SwarmResult))).success = true ↔
      "success" = "success" ∧
        Spec2Proof.extractDecision "DECISION: COMPLETE" = "COMPLETE" :=
  (Spec2Proof.processTask_spec "add two numbers" "unused"
    (⟨some "success",
      ["requirements_agent", "context_agent", "builder_agent",
        "quality_agent", "escalation_agent"],
      20000, "DECISION: COMPLETE", none, none, none, none,
      1000⟩ : Spec2Proof.SwarmResult) "success").2 rfl

theorem Spec2Proof.runSwarmAux_length_le (cfg : Spec2Proof.SwarmConfig)
    (policy : List String → Spec2Proof.Directive) :
    ∀ (iters handoffs : ℕ) (cur : String) (acc : List String),
      (Spec2Proof.runSwarmAux cfg policy iters handoffs cur acc).1.length ≤
        acc.length + min iters (handoffs + 1) := by
  intro iters
  induction iters with
  | zero =>
    intro handoffs cur acc
    simp [Spec2Proof.runSwarmAux]
  | succ n ih =>
    intro handoffs cur acc
    unfold Spec2Proof.runSwarmAux
    dsimp only
    split_ifs with hrep
    · simp
      try omega
    · cases hpol : policy ((cur :: acc).reverse) with
      | terminate =>
        simp [hpol]
        try omega
      | handoff target =>
        cases handoffs with
        | zero =>
          simp [hpol]
          try omega
        | succ h =>
          have hih := ih h target (cur :: acc)
          simp [hpol] at hih ⊢
          omega

/-- C9: for every bound configuration and every directive policy the
untrusted agents may follow, the agent sequence of a run never holds
more than `maxIterations` activations nor more than `maxHandoffs`
transitions between agents; the machine force-terminates with a failure
tag instead of making a further transition once a bound is hit (the
`"iteration limit"`/`"handoff limit"` branches of `runSwarmAux`).  The
orchestrator configures both bounds to 10. -/
theorem Spec2Proof.runSwarm_bounds (cfg : Spec2Proof.SwarmConfig)
    (policy : List String → Spec2Proof.Directive) :
    (Spec2Proof.runSwarm cfg policy).1.length ≤ cfg.maxIterations ∧
    (Spec2Proof.runSwarm cfg policy).1.length - 1 ≤ cfg.maxHandoffs ∧
    (Spec2Proof.runSwarm Spec2Proof.codeCollabConfig policy).1.length ≤ 10 ∧
    (Spec2Proof.runSwarm Spec2Proof.codeCollabConfig policy).1.length - 1 ≤ 10 := by
  have h := Spec2Proof.runSwarmAux_length_le cfg policy cfg.maxIterations
    cfg.maxHandoffs "requirements_agent" []
  have h10 := Spec2Proof.runSwarmAux_length_le Spec2Proof.codeCollabConfig policy
    Spec2Proof.codeCollabConfig.maxIterations Spec2Proof.codeCollabConfig.maxHandoffs
    "requirements_agent" []
  have e1 : Spec2Proof.codeCollabConfig.maxIterations = 10 := rfl
  have e2 : Spec2Proof.codeCollabConfig.maxHandoffs = 10 := rfl
  unfold Spec2Proof.runSwarm
  simp only [List.length_nil, Nat.zero_add] at h h10
  rw [e1, e2] at h10 ⊢
  exact ⟨by omega, by omega, by omega, by omega⟩

/-- C10: starting from the empty `task_history`, after every sequence
of completed POST `/api/process` requests the history holds at most 50
entries: each handler appends the new response and removes the oldest
entry whenever the length exceeds 50. -/
theorem Spec2Proof.taskHistory_bounded {α : Type} (responses : List α) :
    (Spec2Proof.historyAfter responses).length ≤ 50 := by
  have step : ∀ (h : List α) (r : α), h.length ≤ 50 →
      (Spec2Proof.historyUpdate h r).length ≤ 50 := by
    intro h r hb
    simp only [Spec2Proof.historyUpdate]
    split_ifs with hl
    · simpa using hb
    · simp at hl ⊢
      omega
  have main : ∀ (l acc : List α), acc.length ≤ 50 →
      (l.foldl Spec2Proof.historyUpdate acc).length ≤ 50 := by
    intro l
    induction l with
    | nil =>
      intro acc hacc
      simpa
    | cons x xs ih =>
      intro acc hacc
      exact ih _ (step acc x hacc)
  exact main responses [] (by simp)
